import Mathlib

/-!
Verification of the LUKS2 unlock core (luks2.go) against its specification.

The Go source of `luks2.go` is embedded shallowly below.  External library
primitives (crypto/sha256, golang.org/x/crypto pbkdf2/argon2/xts,
encoding/base64, encoding/json) are uninterpreted parameters collected in the
structure `goPrims`: every theorem quantifies over them, so no proof depends
on properties of the actual cryptographic functions.  Repository code that is
declared outside luks2.go (the metadata model, the two fixed constants, the
anti-forensic merge, small utilities and the sentinel error value) is modelled
from the specification; each such definition carries a doc comment saying so.

Machine integers are modelled as Nat/Int with explicit reductions modulo
2 to the 64 where Go arithmetic can wrap.  Go byte slices are `List Nat`.
-/

deriving instance DecidableEq for Except

namespace Luks

/-- Byte strings: Go byte slices are lists of (byte-sized) naturals. -/
abbrev ByteSeq := List Nat

/-- Modelled from the spec: the fixed stripe count constant `stripesNum`
(declared outside luks2.go); §3 fixes it to 4000. -/
def stripesNum : Nat := 4000

/-- Modelled from the spec: the fixed sector size constant
`storageSectorSize` (declared outside luks2.go); §4.4/§6 fix it to 512. -/
def storageSectorSize : Nat := 512

/-- Go `uint64(i)` conversion of a signed 64-bit value (two's complement). -/
def toUint64 (i : Int) : Nat := (i % ((2 : Int) ^ 64)).toNat

/-- Go `int64(n)` reinterpretation of an unsigned 64-bit value. -/
def toInt64 (n : Nat) : Int :=
  if n % 2 ^ 64 < 2 ^ 63 then ((n % 2 ^ 64 : Nat) : Int)
  else ((n % 2 ^ 64 : Nat) : Int) - 2 ^ 64

/-- Decimal digit run, as consumed by strconv.ParseInt (base 10). -/
def decDigitsGo : List Char → Nat → Option Nat
  | [], acc => some acc
  | c :: cs, acc =>
    if c.isDigit then decDigitsGo cs (acc * 10 + (c.toNat - 48)) else none

/-- Model of strconv.ParseInt(s, 10, 64), which also backs json.Number.Int64
and strconv.Atoi: optional sign, mandatory digit run, 64-bit signed range. -/
def parseInt64 (s : String) : Option Int :=
  let withSign : Int × List Char :=
    match s.data with
    | '+' :: r => (1, r)
    | '-' :: r => (-1, r)
    | r => (1, r)
  if withSign.2.isEmpty then none
  else
    match decDigitsGo withSign.2 0 with
    | none => none
    | some n =>
      let v : Int := withSign.1 * n
      if -(2 ^ 63) ≤ v ∧ v ≤ 2 ^ 63 - 1 then some v else none

/-- Modelled from the spec: utility `isPowerOfTwo` (declared outside
luks2.go); §4.1 requires headerSize to be a power of two. -/
def isPowerOfTwo (n : Nat) : Bool := n != 0 && n.land (n - 1) == 0

/-- Modelled from the spec: utility `fixedArrayToString` (declared outside
luks2.go); §6 says string fields of the superblock are NUL-terminated, so the
string is the byte run before the first NUL. -/
def fixedArrayToString (buf : ByteSeq) : String :=
  String.mk ((buf.takeWhile (fun b => b ≠ 0)).map Char.ofNat)

/-- The scan of bytes.IndexByte, carrying the current index. -/
def indexOfByteFrom : ByteSeq → Nat → Nat → Option Nat
  | [], _, _ => none
  | b :: bs, t, i => if b = t then some i else indexOfByteFrom bs t (i + 1)

/-- Model of bytes.IndexByte: index of the first occurrence, none for -1. -/
def indexOfByte (l : ByteSeq) (t : Nat) : Option Nat := indexOfByteFrom l t 0

/-- Big-endian bytes to natural number (binary.BigEndian decoding). -/
def beBytesToNat (l : ByteSeq) : Nat := l.foldl (fun acc b => acc * 256 + b) 0

/-- In-place zeroing of data[start:start+n] (the checksum-clearing loop). -/
def zeroRange (l : ByteSeq) (start n : Nat) : ByteSeq :=
  l.take start ++ List.replicate n 0 ++ l.drop (start + n)

/-- Model of f.ReadAt(buf, off) on a device whose full content is `file`:
succeeds iff the requested range lies inside the file. -/
def readAt (file : ByteSeq) (off : Int) (n : Nat) : Option ByteSeq :=
  if 0 ≤ off ∧ off.toNat + n ≤ file.length then
    some ((file.drop off.toNat).take n)
  else none

/-- Modelled from the spec (§3): kdf parameters of a keyslot.  The metadata
type declarations live outside luks2.go; numeric JSON fields that luks2.go
reads through json.Number are kept as strings. -/
structure kdf where
  type : String
  hash : String
  salt : String
  iterations : Nat
  time : Nat
  memory : Nat
  cpus : Nat
deriving DecidableEq

/-- Modelled from the spec (§3): anti-forensic parameters of a keyslot. -/
structure af where
  stripes : Nat
  hash : String
deriving DecidableEq

/-- Modelled from the spec (§3): the key-material area of a keyslot.
offset and size are json.Number fields, kept as strings. -/
structure area where
  offset : String
  size : String
  encryption : String
  keySize : Nat
deriving DecidableEq

/-- Modelled from the spec (§3): one keyslot. -/
structure keyslot where
  keySize : Nat
  area : area
  kdf : kdf
  af : af
  priority : String
deriving DecidableEq

/-- Modelled from the spec (§3): one digest.  Bound keyslot and segment
indices are json.Number entries, kept as strings. -/
structure digest where
  type : String
  hash : String
  salt : String
  iterations : Nat
  digest : String
  keyslots : List String
  segments : List String
deriving DecidableEq

/-- Modelled from the spec (§3): one storage segment. -/
structure segment where
  offset : String
  size : String
  ivTweak : String
  sectorSize : Nat
  encryption : String
deriving DecidableEq

/-- Modelled from the spec (§3): the parsed JSON metadata.  The collections
are modelled as index-ordered lists (the JSON objects are keyed by the small
decimal indices 0..n-1). -/
structure metadata where
  keyslots : List keyslot
  segments : List segment
  digests : List digest
deriving DecidableEq

/-- The zero value of `keyslot` (Go zero value for a missing entry). -/
def zeroKeyslot : keyslot :=
  { keySize := 0,
    area := { offset := "", size := "", encryption := "", keySize := 0 },
    kdf := { type := "", hash := "", salt := "", iterations := 0,
             time := 0, memory := 0, cpus := 0 },
    af := { stripes := 0, hash := "" },
    priority := "" }

/-- The zero value of `segment` (Go zero value for a missing entry). -/
def zeroSegment : segment :=
  { offset := "", size := "", ivTweak := "", sectorSize := 0, encryption := "" }

/-- Segment lookup d.meta.Segments[i]: a missing index yields the zero
value, whose empty numeric fields fail to parse downstream. -/
def segAt (meta : metadata) (i : Int) : segment :=
  if 0 ≤ i ∧ i.toNat < meta.segments.length then
    meta.segments.getD i.toNat zeroSegment
  else zeroSegment

/-- The parsed fixed superblock fields that luks2OpenDevice uses.  Offsets
follow the big-endian field layout of headerV2: headerSize at byte 8,
checksumAlgorithm at byte 72, uuid at byte 168, checksum at byte 448. -/
structure parsedHeader where
  headerSize : Nat
  checksumAlgorithm : String
  uuid : String
  checksum : ByteSeq
deriving DecidableEq

/-- binary.Read(f, binary.BigEndian, &hdr): decode the superblock fields
used by luks2OpenDevice from the raw device bytes. -/
def readHeaderV2 (file : ByteSeq) : parsedHeader :=
  { headerSize := beBytesToNat ((file.drop 8).take 8),
    checksumAlgorithm := fixedArrayToString ((file.drop 72).take 32),
    uuid := fixedArrayToString ((file.drop 168).take 40),
    checksum := (file.drop 448).take 64 }

/-- The error values produced by luks2.go.  Each fmt.Errorf site gets its own
constructor; `wrongPassphrase` models the distinguished sentinel
ErrPassphraseDoesNotMatch (declared outside luks2.go, modelled from the
spec as a distinguished value compared by identity). -/
inductive luksError where
  | ioError
  | invalidHeaderSize (size : Nat)
  | unknownChecksumAlgo (algo : String)
  | invalidChecksum
  | jsonParseError
  | keyslotOutOfRange (idx : Int)
  | base64Error (field : String)
  | unknownKdfHash (h : String)
  | unknownKdfType (t : String)
  | invalidAreaSize (idx : Int)
  | areaTooSmall (idx : Int)
  | sizeNotAligned (idx : Int)
  | invalidAreaOffset (idx : Int)
  | offsetNotAligned (idx : Int)
  | encryptionFormatError (enc : String)
  | unknownCipher (c : String)
  | unknownMode (m : String)
  | xtsInitError
  | unsupportedStripes
  | unknownAfHash (h : String)
  | noDigestFound (idx : Int)
  | unknownDigestHash (h : String)
  | unknownDigestType (t : String)
  | wrongPassphrase
  | unsupportedSegmentCount (n : Nat)
  | numError
  | invalidSegmentSize
deriving DecidableEq

/-- Uninterpreted external primitives used by luks2.go: stdlib and
golang.org/x/crypto functions, plus the repository's anti-forensic merge.
afMerge is repository code outside luks2.go; modelled from the spec (§4.5)
as a deterministic total function of (stripedData, keyLength, stripeCount)
with the hash fixed to the only accepted algorithm sha256; no claim depends
on its internals.  jsonUnmarshal returns none on malformed JSON. -/
structure goPrims where
  sha256 : ByteSeq → ByteSeq
  pbkdf2 : ByteSeq → ByteSeq → Nat → Nat → ByteSeq
  argon2Key : ByteSeq → ByteSeq → Nat → Nat → Nat → Nat → ByteSeq
  argon2IDKey : ByteSeq → ByteSeq → Nat → Nat → Nat → Nat → ByteSeq
  xtsKeyOk : ByteSeq → Bool
  xtsDecrypt : ByteSeq → ByteSeq → Nat → ByteSeq
  b64decode : String → Option ByteSeq
  jsonUnmarshal : ByteSeq → Option metadata
  afMerge : ByteSeq → Nat → Nat → ByteSeq

/-- The device handle produced by luks2OpenDevice. -/
structure luks2Device where
  hdr : parsedHeader
  meta : metadata
deriving DecidableEq

/-- Outcome of luks2OpenDevice; `panicked` marks a run that does not return
(an out-of-range slice bound aborts the Go program). -/
inductive openResult where
  | ok (dev : luks2Device)
  | err (e : luksError)
  | panicked
deriving DecidableEq

/-- The tail of luks2OpenDevice after the checksum comparison: slice the
JSON region at offset 4096 up to the first NUL and unmarshal it.  A region
without any NUL makes bytes.IndexByte return -1 and the slice bound
jsonData[:-1] panic. -/
def openParseJson (P : goPrims) (hdr : parsedHeader) (data : ByteSeq) : openResult :=
  match indexOfByte (data.drop 4096) 0 with
  | none => .panicked
  | some i =>
    match P.jsonUnmarshal ((data.drop 4096).take i) with
    | none => .err .jsonParseError
    | some meta => .ok { hdr := hdr, meta := meta }

/-- luks2OpenDevice (luks2.go, lines 47-104): read the big-endian superblock,
validate headerSize, re-read the whole header, zero the checksum field in
the copy, hash it with the named algorithm (only sha256), compare with the
stored checksum, then parse the NUL-terminated JSON region at 4096. -/
def luks2OpenDevice (P : goPrims) (file : ByteSeq) : openResult :=
  if file.length < 512 then .err .ioError
  else
    let hdr := readHeaderV2 file
    let hdrSize := hdr.headerSize
    if isPowerOfTwo hdrSize = false ∨ hdrSize < 16384 ∨ 4194304 < hdrSize then
      .err (.invalidHeaderSize hdrSize)
    else if file.length < hdrSize then .err .ioError
    else
      let data := zeroRange (file.take hdrSize) 448 64
      if hdr.checksumAlgorithm = "sha256" then
        let checksum := P.sha256 data
        let expectedChecksum := hdr.checksum.take 32
        if checksum = expectedChecksum then openParseJson P hdr data
        else .err .invalidChecksum
      else .err (.unknownChecksumAlgo hdr.checksumAlgorithm)

/-- deriveLuks2AfKey (luks2.go, lines 330-353). -/
def deriveLuks2AfKey (P : goPrims) (k : kdf) (keyslotIdx : Int)
    (passphrase : ByteSeq) (keyLength : Nat) : Except luksError ByteSeq :=
  match P.b64decode k.salt with
  | none => .error (.base64Error "kdf.salt")
  | some salt =>
    if k.type = "pbkdf2" then
      if k.hash = "sha256" then
        .ok (P.pbkdf2 passphrase salt k.iterations keyLength)
      else .error (.unknownKdfHash k.hash)
    else if k.type = "argon2i" then
      .ok (P.argon2Key passphrase salt (k.time % 2 ^ 32) (k.memory % 2 ^ 32)
            (k.cpus % 2 ^ 8) (keyLength % 2 ^ 32))
    else if k.type = "argon2id" then
      .ok (P.argon2IDKey passphrase salt (k.time % 2 ^ 32) (k.memory % 2 ^ 32)
            (k.cpus % 2 ^ 8) (keyLength % 2 ^ 32))
    else .error (.unknownKdfType k.type)

/-- One splitting step of strings.Split(s, sep) for the one-character
separator, on the character list, carrying the current field backwards. -/
def splitSepAux (sep : Char) : List Char → List Char → List String
  | [], acc => [String.mk acc.reverse]
  | c :: cs, acc =>
    if c = sep then String.mk acc.reverse :: splitSepAux sep cs []
    else splitSepAux sep cs (c :: acc)

/-- Model of strings.Split(s, "-"): split on every occurrence of the
one-character separator; n separators yield n+1 fields. -/
def splitSep (s : String) (sep : Char) : List String := splitSepAux sep s.data []

/-- buildLuks2AfCipher (luks2.go, lines 304-328): the produced cipher is
represented by its key; xts.NewCipher key validation is the uninterpreted
predicate xtsKeyOk. -/
def buildLuks2AfCipher (P : goPrims) (encryption : String) (afKey : ByteSeq) :
    Except luksError ByteSeq :=
  let encParts := splitSep encryption '-'
  if encParts.length = 3 then
    let cipherName := encParts.getD 0 ""
    let cipherMode := encParts.getD 1 ""
    if cipherName = "aes" then
      if cipherMode = "xts" then
        if P.xtsKeyOk afKey then .ok afKey else .error .xtsInitError
      else .error (.unknownMode cipherMode)
    else .error (.unknownCipher cipherName)
  else .error (.encryptionFormatError encryption)

/-- The per-sector decryption loop (luks2.go, lines 283-286): sector i of the
area is decrypted independently with tweak i. -/
def decryptSectors (P : goPrims) (key : ByteSeq) (data : ByteSeq) (n : Nat) :
    ByteSeq :=
  (((List.range n).map
      (fun i => P.xtsDecrypt key ((data.drop (i * storageSectorSize)).take storageSectorSize) i)).flatten)
    ++ data.drop (n * storageSectorSize)

/-- The part of decryptLuks2VolumeKey after the size and alignment checks
(luks2.go, lines 274-301): read the area, build the cipher, decrypt it
sector by sector, validate the af parameters and merge. -/
def decryptAfterRead (P : goPrims) (file : ByteSeq) (ks : keyslot)
    (afKey : ByteSeq) (keyslotOffset : Int) (keyslotSize : Nat) :
    Except luksError ByteSeq :=
  match readAt file keyslotOffset keyslotSize with
  | none => .error .ioError
  | some keyData =>
    match buildLuks2AfCipher P ks.area.encryption afKey with
    | .error e => .error e
    | .ok cipherKey =>
      let decrypted := decryptSectors P cipherKey keyData (keyslotSize / storageSectorSize)
      if ks.af.stripes = stripesNum then
        if ks.af.hash = "sha256" then
          .ok (P.afMerge decrypted ks.keySize ks.af.stripes)
        else .error (.unknownAfHash ks.af.hash)
      else .error .unsupportedStripes

/-- decryptLuks2VolumeKey (luks2.go, lines 245-302).  keyslotSize is the
uint product area.KeySize * stripesNum (64-bit wrap); the alignment checks
are on keyslotSize and on the parsed area offset. -/
def decryptLuks2VolumeKey (P : goPrims) (file : ByteSeq) (keyslotIdx : Int)
    (ks : keyslot) (afKey : ByteSeq) : Except luksError ByteSeq :=
  let keyslotSize := (ks.area.keySize * stripesNum) % 2 ^ 64
  match parseInt64 ks.area.size with
  | none => .error (.invalidAreaSize keyslotIdx)
  | some areaSize =>
    if toInt64 keyslotSize > areaSize then .error (.areaTooSmall keyslotIdx)
    else if keyslotSize % storageSectorSize = 0 then
      match parseInt64 ks.area.offset with
      | none => .error (.invalidAreaOffset keyslotIdx)
      | some keyslotOffset =>
        if keyslotOffset % (storageSectorSize : Int) = 0 then
          decryptAfterRead P file ks afKey keyslotOffset keyslotSize
        else .error (.offsetNotAligned keyslotIdx)
    else .error (.sizeNotAligned keyslotIdx)

/-- computeDigestForKey (luks2.go, lines 222-243). -/
def computeDigestForKey (P : goPrims) (dig : digest) (finalKey : ByteSeq) :
    Except luksError ByteSeq :=
  match P.b64decode dig.salt with
  | none => .error (.base64Error "digest.salt")
  | some digSalt =>
    if dig.type = "pbkdf2" then
      if dig.hash = "sha256" then
        .ok (P.pbkdf2 finalKey digSalt dig.iterations 32)
      else .error (.unknownDigestHash dig.hash)
    else .error (.unknownDigestType dig.type)

/-- Whether one digest's bound-keyslot list references keyslotIdx: entries
that fail integer parsing are skipped (the inner continue in
findDigestForKeyslot, luks2.go lines 357-365). -/
def digestMatchesKeyslot (dig : digest) (keyslotIdx : Int) : Bool :=
  dig.keyslots.any (fun k =>
    match parseInt64 k with
    | none => false
    | some v => v == keyslotIdx)

/-- The scan of findDigestForKeyslot, carrying the running index i. -/
def findDigestGo (i : Int) (digests : List digest) (keyslotIdx : Int) :
    Int × Option digest :=
  match digests with
  | [] => (0, none)
  | d :: ds =>
    if digestMatchesKeyslot d keyslotIdx then (i, some d)
    else findDigestGo (i + 1) ds keyslotIdx

/-- findDigestForKeyslot (luks2.go, lines 355-368): first digest whose
bound-keyslot list contains keyslotIdx, else (0, nil). -/
def findDigestForKeyslot (digests : List digest) (keyslotIdx : Int) :
    Int × Option digest :=
  findDigestGo 0 digests keyslotIdx

/-- volumeInfo (declared outside luks2.go; fields modelled from the spec §3
and from the literal construction in luks2.go lines 182-191). -/
structure volumeInfo where
  key : ByteSeq
  digestId : Int
  luksType : String
  storageSize : Nat
  storageOffset : Nat
  storageEncryption : String
  storageIvTweak : Nat
  storageSectorSize : Nat
deriving DecidableEq

/-- The tail of segment resolution once storageSize is known (the
straight-line continuation after the size if-block of luks2.go lines
164-180). -/
def resolveWithSize (digIdx : Int) (finalKey : ByteSeq)
    (storageSegment : segment) (offset : Int) (storageSize : Nat) :
    Except luksError volumeInfo :=
  match parseInt64 storageSegment.ivTweak with
  | none => .error .numError
  | some ivTweak =>
    .ok { key := finalKey,
          digestId := digIdx,
          luksType := "LUKS2",
          storageSize := storageSize / storageSegment.sectorSize,
          storageOffset := toUint64 offset / storageSegment.sectorSize,
          storageEncryption := storageSegment.encryption,
          storageIvTweak := toUint64 ivTweak,
          storageSectorSize := storageSegment.sectorSize }

/-- Segment resolution and volumeInfo construction: the tail of
unlockKeyslot after digest verification (luks2.go, lines 150-192). -/
def resolveVolumeInfo (meta : metadata) (digIdx : Int) (digInfo : digest)
    (finalKey : ByteSeq) : Except luksError volumeInfo :=
  if digInfo.segments.length = 1 then
    match parseInt64 (digInfo.segments.getD 0 "") with
    | none => .error .numError
    | some seg =>
      let storageSegment := segAt meta seg
      match parseInt64 storageSegment.offset with
      | none => .error .numError
      | some offset =>
        if storageSegment.size = "dynamic" then
          resolveWithSize digIdx finalKey storageSegment offset 0
        else
          match parseInt64 storageSegment.size with
          | none => .error .numError
          | some size =>
            if size = 0 then .error .invalidSegmentSize
            else resolveWithSize digIdx finalKey storageSegment offset (toUint64 size)
  else .error (.unsupportedSegmentCount digInfo.segments.length)

/-- unlockKeyslot (luks2.go, lines 110-193). -/
def unlockKeyslot (P : goPrims) (d : luks2Device) (file : ByteSeq)
    (keyslotIdx : Int) (passphrase : ByteSeq) : Except luksError volumeInfo :=
  let keyslots := d.meta.keyslots
  if keyslotIdx < 0 ∨ (keyslots.length : Int) ≤ keyslotIdx then
    .error (.keyslotOutOfRange keyslotIdx)
  else
    let ks := keyslots.getD keyslotIdx.toNat zeroKeyslot
    match deriveLuks2AfKey P ks.kdf keyslotIdx passphrase ks.keySize with
    | .error e => .error e
    | .ok afKey =>
      match decryptLuks2VolumeKey P file keyslotIdx ks afKey with
      | .error e => .error e
      | .ok finalKey =>
        match findDigestForKeyslot d.meta.digests keyslotIdx with
        | (_, none) => .error (.noDigestFound keyslotIdx)
        | (digIdx, some digInfo) =>
          match computeDigestForKey P digInfo finalKey with
          | .error e => .error e
          | .ok generatedDigest =>
            match P.b64decode digInfo.digest with
            | none => .error (.base64Error "digest")
            | some expectedDigest =>
              if generatedDigest = expectedDigest then
                resolveVolumeInfo d.meta digIdx digInfo finalKey
              else .error .wrongPassphrase

/-- The index enumeration of `for k, v := range keyslots`. -/
def enumFrom : Nat → List keyslot → List (Nat × keyslot)
  | _, [] => []
  | n, x :: xs => (n, x) :: enumFrom (n + 1) xs

/-- sort.Ints, modelled as insertion sort on Int. -/
def sortedInsert (x : Int) : List Int → List Int
  | [] => [x]
  | y :: ys => if x ≤ y then x :: y :: ys else y :: sortedInsert x ys

/-- sort.Ints, modelled as insertion sort on Int. -/
def insertionSort : List Int → List Int
  | [] => []
  | x :: xs => sortedInsert x (insertionSort xs)

/-- The partition loop of unlockAnyKeyslot (luks2.go, lines 197-204):
priority "2" indices to the first list, ""/"1" to the second, everything
else dropped. -/
def collectPrio (l : List (Nat × keyslot)) : List Int × List Int :=
  l.foldl
    (fun acc kv =>
      if kv.2.priority = "2" then (acc.1 ++ [(kv.1 : Int)], acc.2)
      else if kv.2.priority = "" ∨ kv.2.priority = "1" then
        (acc.1, acc.2 ++ [(kv.1 : Int)])
      else acc)
    ([], [])

/-- The attempt order of unlockAnyKeyslot (luks2.go, lines 197-207): both
partitions sorted ascending, high priority first. -/
def activeKeyslots (ksl : List keyslot) : List Int :=
  let prio := collectPrio (enumFrom 0 ksl)
  insertionSort prio.1 ++ insertionSort prio.2

/-- The attempt loop of unlockAnyKeyslot (luks2.go, lines 209-219). -/
def tryKeyslots (P : goPrims) (d : luks2Device) (file : ByteSeq)
    (passphrase : ByteSeq) : List Int → Except luksError volumeInfo
  | [] => .error .wrongPassphrase
  | k :: ks =>
    match unlockKeyslot P d file k passphrase with
    | .ok v => .ok v
    | .error e =>
      if e = .wrongPassphrase then tryKeyslots P d file passphrase ks
      else .error e

/-- unlockAnyKeyslot (luks2.go, lines 195-220). -/
def unlockAnyKeyslot (P : goPrims) (d : luks2Device) (file : ByteSeq)
    (passphrase : ByteSeq) : Except luksError volumeInfo :=
  tryKeyslots P d file passphrase (activeKeyslots d.meta.keyslots)

/-- Zeroing status of the four secret buffers of one unlockKeyslot run:
none = the buffer was never allocated, some b = it was allocated and b says
whether it is zeroed when the call returns.  clearSlice and the defer
statements of the source are mirrored by these flags. -/
structure bufLedger where
  afKeyCleared : Option Bool
  keyDataCleared : Option Bool
  finalKeyCleared : Option Bool
  digestCleared : Option Bool
deriving DecidableEq

/-- decryptLuks2VolumeKey instrumented with the zeroing status of the
decrypted-area buffer keyData: it is allocated at line 263 right after the
size checks, and the defer clearSlice(keyData) at line 264 zeroes it on
every later exit. -/
def decryptLuks2VolumeKeyB (P : goPrims) (file : ByteSeq) (keyslotIdx : Int)
    (ks : keyslot) (afKey : ByteSeq) :
    Except luksError ByteSeq × Option Bool :=
  let keyslotSize := (ks.area.keySize * stripesNum) % 2 ^ 64
  match parseInt64 ks.area.size with
  | none => (.error (.invalidAreaSize keyslotIdx), none)
  | some areaSize =>
    if toInt64 keyslotSize > areaSize then (.error (.areaTooSmall keyslotIdx), none)
    else if keyslotSize % storageSectorSize = 0 then
      match parseInt64 ks.area.offset with
      | none => (.error (.invalidAreaOffset keyslotIdx), some true)
      | some keyslotOffset =>
        if keyslotOffset % (storageSectorSize : Int) = 0 then
          (decryptAfterRead P file ks afKey keyslotOffset keyslotSize, some true)
        else (.error (.offsetNotAligned keyslotIdx), some true)
    else (.error (.sizeNotAligned keyslotIdx), none)

/-- unlockKeyslot instrumented with the zeroing status of the four secret
buffers on return.  The defer clearSlice(afKey) at line 122 and the defer
clearSlice(generatedDigest) at line 139 zero those buffers on every exit
after their allocation; the source has no clearSlice for finalKey, so on
every exit after a successful decryptLuks2VolumeKey that buffer stays
un-zeroed (on success it is handed to the caller inside volumeInfo). -/
def unlockKeyslotB (P : goPrims) (d : luks2Device) (file : ByteSeq)
    (keyslotIdx : Int) (passphrase : ByteSeq) :
    Except luksError volumeInfo × bufLedger :=
  let keyslots := d.meta.keyslots
  if keyslotIdx < 0 ∨ (keyslots.length : Int) ≤ keyslotIdx then
    (.error (.keyslotOutOfRange keyslotIdx), ⟨none, none, none, none⟩)
  else
    let ks := keyslots.getD keyslotIdx.toNat zeroKeyslot
    match deriveLuks2AfKey P ks.kdf keyslotIdx passphrase ks.keySize with
    | .error e => (.error e, ⟨none, none, none, none⟩)
    | .ok _afKey =>
      match decryptLuks2VolumeKeyB P file keyslotIdx ks _afKey with
      | (.error e, kd) => (.error e, ⟨some true, kd, none, none⟩)
      | (.ok finalKey, kd) =>
        match findDigestForKeyslot d.meta.digests keyslotIdx with
        | (_, none) =>
          (.error (.noDigestFound keyslotIdx), ⟨some true, kd, some false, none⟩)
        | (digIdx, some digInfo) =>
          match computeDigestForKey P digInfo finalKey with
          | .error e => (.error e, ⟨some true, kd, some false, none⟩)
          | .ok generatedDigest =>
            match P.b64decode digInfo.digest with
            | none =>
              (.error (.base64Error "digest"), ⟨some true, kd, some false, some true⟩)
            | some expectedDigest =>
              if generatedDigest = expectedDigest then
                match resolveVolumeInfo d.meta digIdx digInfo finalKey with
                | .error e => (.error e, ⟨some true, kd, some false, some true⟩)
                | .ok info => (.ok info, ⟨some true, kd, some false, some true⟩)
              else (.error .wrongPassphrase, ⟨some true, kd, some false, some true⟩)

/-! ### Concrete inputs used by the witness and counterexample theorems -/

/-- A concrete instantiation of the uninterpreted primitives, used by the
witness theorems. -/
def prims0 : goPrims :=
  { sha256 := fun _ => List.replicate 32 0,
    pbkdf2 := fun _ _ _ n => List.replicate n 7,
    argon2Key := fun _ _ _ _ _ _ => [],
    argon2IDKey := fun _ _ _ _ _ _ => [],
    xtsKeyOk := fun _ => true,
    xtsDecrypt := fun _ b _ => b,
    b64decode := fun s => if s = "R09PRA==" then some (List.replicate 32 7) else some [],
    jsonUnmarshal := fun _ => none,
    afMerge := fun _ _ _ => [] }

/-- A pbkdf2 keyslot with key size 0 (so the key-material area is empty). -/
def keyslot0 : keyslot :=
  { keySize := 0,
    area := { offset := "0", size := "0", encryption := "aes-xts-plain64", keySize := 0 },
    kdf := { type := "pbkdf2", hash := "sha256", salt := "AAAA", iterations := 4,
             time := 0, memory := 0, cpus := 0 },
    af := { stripes := 4000, hash := "sha256" },
    priority := "" }

/-- A digest bound to keyslot 0 and segment 0 whose stored digest decodes
(under prims0) to the value prims0.pbkdf2 produces: verification succeeds. -/
def digestOk : digest :=
  { type := "pbkdf2", hash := "sha256", salt := "AAAA", iterations := 4,
    digest := "R09PRA==", keyslots := ["0"], segments := ["0"] }

/-- Like digestOk but the stored digest decodes to a different value:
verification fails. -/
def digestBad : digest := { digestOk with digest := "xx" }

/-- A digest whose only reference to keyslot 0 is the malformed entry
"zzz". -/
def digestMalformed : digest := { digestOk with keyslots := ["zzz"] }

/-- The storage segment of the spec's concrete example (§8): offset 16384,
size "131072", sector size 512. -/
def segment0 : segment :=
  { offset := "16384", size := "131072", ivTweak := "0", sectorSize := 512,
    encryption := "aes-xts-plain64" }

/-- Device whose single keyslot verifies under prims0. -/
def devOk : luks2Device :=
  { hdr := { headerSize := 16384, checksumAlgorithm := "sha256", uuid := "",
             checksum := [] },
    meta := { keyslots := [keyslot0], segments := [segment0],
              digests := [digestOk] } }

/-- Device whose single keyslot fails digest verification under prims0. -/
def devBad : luks2Device :=
  { hdr := devOk.hdr,
    meta := { keyslots := [keyslot0], segments := [segment0],
              digests := [digestBad] } }

/-- Keyslot whose area size 256001 is not a multiple of 512 while the
derived keyslot material size 64 * 4000 = 256000 is: exercises the
alignment checks of decryptLuks2VolumeKey. -/
def keyslotUnaligned : keyslot :=
  { keyslot0 with
    area := { offset := "0", size := "256001", encryption := "aes-xts-plain64",
              keySize := 64 } }

/-- The first 4096 bytes of the header image used for the open witnesses:
headerSize 16384 big-endian at byte 8, "sha256" at byte 72, all other
bytes (including the checksum field at 448) zero. -/
def hdrBytes : ByteSeq :=
  List.replicate 8 0 ++ [0, 0, 0, 0, 0, 0, 64, 0] ++ List.replicate 56 0 ++
    [115, 104, 97, 50, 53, 54] ++ List.replicate 4018 0

/-- A 16384-byte header image whose JSON region (bytes 4096 and beyond)
contains no NUL byte. -/
def fileNoNul : ByteSeq := hdrBytes ++ List.replicate 12288 1

/-- A keyslot that differs from keyslot0 only in its priority field. -/
def prioKeyslot (p : String) : keyslot := { keyslot0 with priority := p }

/-- Concrete primitives for the C5 evaluation, shaped like the real
libraries: sha256 produces 32 bytes, pbkdf2 produces outLen bytes, the xts
key check accepts exactly 64-byte keys (AES-256 doubled, the only length
valid for the 64-byte derived key below), base64 decoding accepts the
4-character group "AAAA" (three zero bytes) and rejects everything else,
and the anti-forensic merge produces keyLength bytes. -/
def prims5 : goPrims :=
  { sha256 := fun _ => List.replicate 32 0,
    pbkdf2 := fun _ _ _ n => List.replicate n 7,
    argon2Key := fun _ _ _ _ _ _ => [],
    argon2IDKey := fun _ _ _ _ _ _ => [],
    xtsKeyOk := fun k => k.length == 64,
    xtsDecrypt := fun _ b _ => b,
    b64decode := fun s => if s = "AAAA" then some [0, 0, 0] else none,
    jsonUnmarshal := fun _ => none,
    afMerge := fun _ keyLen _ => List.replicate keyLen 5 }

/-- A realistic pbkdf2 keyslot with key size 64: its key-material area is
256000 bytes (64 * 4000, a multiple of 512) at offset 0. -/
def keyslot5 : keyslot :=
  { keySize := 64,
    area := { offset := "0", size := "256000", encryption := "aes-xts-plain64",
              keySize := 64 },
    kdf := { type := "pbkdf2", hash := "sha256", salt := "AAAA",
             iterations := 1000, time := 0, memory := 0, cpus := 0 },
    af := { stripes := 4000, hash := "sha256" },
    priority := "" }

/-- A digest bound to keyslot 0 whose stored value decodes (under prims5)
to three zero bytes, which differ from the 32-byte computed digest:
verification fails with WrongPassphrase. -/
def digest5 : digest :=
  { type := "pbkdf2", hash := "sha256", salt := "AAAA", iterations := 1000,
    digest := "AAAA", keyslots := ["0"], segments := ["0"] }

/-- Device holding keyslot5 and digest5. -/
def dev5 : luks2Device :=
  { hdr := devOk.hdr,
    meta := { keyslots := [keyslot5], segments := [segment0],
              digests := [digest5] } }

/-- A 256000-byte device image: large enough for the area read of
keyslot5. -/
def file5 : ByteSeq := List.replicate 256000 0

/-! ### Theorems -/

theorem hdrBytes_length : hdrBytes.length = 4096 := by
  simp only [hdrBytes, List.length_append, List.length_replicate, List.length_cons,
    List.length_nil]

theorem fileNoNul_length : fileNoNul.length = 16384 := by
  simp only [fileNoNul, List.length_append, List.length_replicate, hdrBytes_length]

set_option maxRecDepth 2000 in
theorem readHeader_fileNoNul_size : (readHeaderV2 fileNoNul).headerSize = 16384 := by
  decide

/-- C6: a header whose headerSize field is not a power of two or lies
outside the range 16384..4194304 is rejected with the invalid-header-size
error.  The theorem holds for every choice of the uninterpreted primitives
(in particular for every sha256 and every jsonUnmarshal), so neither the
checksum computation nor JSON parsing can influence this rejection: it
happens before both. -/
theorem claim_C6_header_size (P : goPrims) (file : ByteSeq)
    (h1 : ¬(file.length < 512))
    (h2 : isPowerOfTwo (readHeaderV2 file).headerSize = false
        ∨ (readHeaderV2 file).headerSize < 16384
        ∨ 4194304 < (readHeaderV2 file).headerSize) :
    luks2OpenDevice P file = .err (.invalidHeaderSize (readHeaderV2 file).headerSize) := by
  unfold luks2OpenDevice
  rw [if_neg h1, if_pos h2]

set_option maxRecDepth 2000 in
theorem claim_C6_witness :
    luks2OpenDevice prims0 (List.replicate 512 0)
      = .err (.invalidHeaderSize (readHeaderV2 (List.replicate 512 0)).headerSize) :=
  claim_C6_header_size prims0 (List.replicate 512 0)
    (by simp) (Or.inl (by decide))

/-- C7: for a file passing the header-size check (and long enough for both
reads), the open routine hashes the headerSize-byte region with the
checksum field (bytes 448..511) zeroed, using the algorithm named in the
header; any name other than "sha256" is rejected as unknown, and the result
is the invalid-checksum error exactly when the computed hash differs from
the first 32 stored checksum bytes: the remaining processing
(openParseJson) can never produce the invalid-checksum error. -/
theorem claim_C7_checksum (P : goPrims) (file : ByteSeq)
    (h1 : ¬(file.length < 512))
    (h2 : ¬(isPowerOfTwo (readHeaderV2 file).headerSize = false
        ∨ (readHeaderV2 file).headerSize < 16384
        ∨ 4194304 < (readHeaderV2 file).headerSize))
    (h3 : ¬(file.length < (readHeaderV2 file).headerSize)) :
    (luks2OpenDevice P file =
      if (readHeaderV2 file).checksumAlgorithm = "sha256" then
        if P.sha256 (zeroRange (file.take (readHeaderV2 file).headerSize) 448 64)
              = (readHeaderV2 file).checksum.take 32 then
          openParseJson P (readHeaderV2 file)
            (zeroRange (file.take (readHeaderV2 file).headerSize) 448 64)
        else .err .invalidChecksum
      else .err (.unknownChecksumAlgo (readHeaderV2 file).checksumAlgorithm))
    ∧ ∀ (hdr : parsedHeader) (data : ByteSeq),
        ¬(openParseJson P hdr data = .err .invalidChecksum) := by
  constructor
  · unfold luks2OpenDevice
    rw [if_neg h1, if_neg h2, if_neg h3]
  · intro hdr data h
    unfold openParseJson at h
    split at h
    · exact absurd h (by simp)
    · split at h <;> simp_all

set_option maxRecDepth 4000 in
theorem claim_C7_witness :
    luks2OpenDevice prims0 fileNoNul =
      if (readHeaderV2 fileNoNul).checksumAlgorithm = "sha256" then
        if prims0.sha256 (zeroRange (fileNoNul.take (readHeaderV2 fileNoNul).headerSize) 448 64)
              = (readHeaderV2 fileNoNul).checksum.take 32 then
          openParseJson prims0 (readHeaderV2 fileNoNul)
            (zeroRange (fileNoNul.take (readHeaderV2 fileNoNul).headerSize) 448 64)
        else .err .invalidChecksum
      else .err (.unknownChecksumAlgo (readHeaderV2 fileNoNul).checksumAlgorithm) :=
  (claim_C7_checksum prims0 fileNoNul
    (by rw [fileNoNul_length]; omega)
    (by rw [readHeader_fileNoNul_size]; decide)
    (by rw [fileNoNul_length, readHeader_fileNoNul_size]; omega)).1

theorem indexOfByteFrom_replicate (n x t i : Nat) (h : ¬(x = t)) :
    indexOfByteFrom (List.replicate n x) t i = none := by
  induction n generalizing i with
  | zero => rfl
  | succ m ih => simp [List.replicate, indexOfByteFrom, h, ih]

/-- C9: if a header passes the size and checksum validations but its
metadata region (bytes 4096 up to headerSize of the checksum-zeroed copy)
contains no NUL byte, luks2OpenDevice does not return an error: the slice
bound jsonData[:bytes.IndexByte(jsonData, 0)] is jsonData[:-1], which
panics.  The routine is total only under the precondition that the JSON
region is NUL-terminated. -/
theorem claim_C9_panics_without_nul (P : goPrims) (file : ByteSeq)
    (h1 : ¬(file.length < 512))
    (h2 : ¬(isPowerOfTwo (readHeaderV2 file).headerSize = false
        ∨ (readHeaderV2 file).headerSize < 16384
        ∨ 4194304 < (readHeaderV2 file).headerSize))
    (h3 : ¬(file.length < (readHeaderV2 file).headerSize))
    (h4 : (readHeaderV2 file).checksumAlgorithm = "sha256")
    (h5 : P.sha256 (zeroRange (file.take (readHeaderV2 file).headerSize) 448 64)
            = (readHeaderV2 file).checksum.take 32)
    (h6 : indexOfByte
            ((zeroRange (file.take (readHeaderV2 file).headerSize) 448 64).drop 4096)
            0 = none) :
    luks2OpenDevice P file = .panicked := by
  unfold luks2OpenDevice
  rw [if_neg h1, if_neg h2, if_neg h3, if_pos h4, if_pos h5]
  unfold openParseJson
  rw [h6]

theorem fileNoNul_drop_4096 :
    (zeroRange (fileNoNul.take (readHeaderV2 fileNoNul).headerSize) 448 64).drop 4096
      = List.replicate 12288 1 := by
  rw [readHeader_fileNoNul_size,
      List.take_of_length_le (le_of_eq fileNoNul_length)]
  unfold zeroRange
  rw [List.drop_append_eq_append_drop, List.drop_append_eq_append_drop,
      List.drop_drop]
  rw [List.drop_eq_nil_of_le (by rw [List.length_take]; omega)]
  rw [List.drop_eq_nil_of_le
        (by rw [List.length_replicate, List.length_take]; omega)]
  simp only [List.nil_append, List.length_append, List.length_take,
    List.length_replicate, fileNoNul_length]
  have h : 448 + 64 + (4096 - (448 ⊓ 16384 + 64)) = 4096 := by omega
  rw [h]
  exact List.drop_left' hdrBytes_length

theorem fileNoNul_no_nul :
    indexOfByte
      ((zeroRange (fileNoNul.take (readHeaderV2 fileNoNul).headerSize) 448 64).drop 4096)
      0 = none := by
  rw [fileNoNul_drop_4096]
  exact indexOfByteFrom_replicate 12288 1 0 0 (by decide)

set_option maxRecDepth 4000 in
theorem claim_C9_witness : luks2OpenDevice prims0 fileNoNul = .panicked :=
  claim_C9_panics_without_nul prims0 fileNoNul
    (by rw [fileNoNul_length]; omega)
    (by rw [readHeader_fileNoNul_size]; decide)
    (by rw [fileNoNul_length, readHeader_fileNoNul_size]; omega)
    (by decide)
    (by decide)
    fileNoNul_no_nul

theorem digestMatches_false_iff (dig : digest) (idx : Int) :
    digestMatchesKeyslot dig idx = false ↔
      ∀ k ∈ dig.keyslots, ∀ v, parseInt64 k = some v → ¬(v = idx) := by
  unfold digestMatchesKeyslot
  rw [List.any_eq_false]
  constructor
  · intro h k hk v hv heq
    have hz := h k hk
    rw [hv] at hz
    simp [heq] at hz
  · intro h k hk
    cases hv : parseInt64 k with
    | none => simp [hv]
    | some v => simpa [hv] using h k hk v hv

theorem findDigestGo_none_iff (i : Int) (digests : List digest) (idx : Int) :
    (findDigestGo i digests idx).2 = none ↔
      ∀ dig ∈ digests, digestMatchesKeyslot dig idx = false := by
  induction digests generalizing i with
  | nil => simp [findDigestGo]
  | cons d ds ih =>
    unfold findDigestGo
    by_cases h : digestMatchesKeyslot d idx
    · simp [h]
    · rw [Bool.not_eq_true] at h
      simp [h, ih (i + 1)]

/-- C10: an entry of a digest's bound-keyslot list that fails integer
parsing is skipped silently (never reported as an error: the search has no
error outcome at all), so the scan finds no digest for a keyslot exactly
when no digest has a well-parsed bound-keyslot entry equal to that index;
a digest whose only reference to the index is malformed is treated as not
bound to it. -/
theorem claim_C10_digest_skip (digests : List digest) (idx : Int) :
    (findDigestForKeyslot digests idx).2 = none ↔
      ∀ dig ∈ digests, ∀ k ∈ dig.keyslots, ∀ v, parseInt64 k = some v → ¬(v = idx) := by
  unfold findDigestForKeyslot
  rw [findDigestGo_none_iff]
  constructor
  · intro h dig hd
    exact (digestMatches_false_iff dig idx).1 (h dig hd)
  · intro h dig hd
    exact (digestMatches_false_iff dig idx).2 (h dig hd)

theorem claim_C10_witness :
    (findDigestForKeyslot [digestMalformed] 0).2 = none :=
  (claim_C10_digest_skip [digestMalformed] 0).mpr (by
    intro dig hd k hk v hv
    rw [List.mem_singleton] at hd
    subst hd
    simp only [digestMalformed, digestOk, List.mem_singleton] at hk
    subst hk
    rw [show parseInt64 "zzz" = none from by decide] at hv
    exact Option.noConfusion hv)

/-- C4 counterexample: for the keyslot with area.key_size 64, area.size
"256001" and area.offset "0", area.size is not a multiple of 512, yet
decryptLuks2VolumeKey does not reject with an alignment error: it proceeds
past both alignment checks to the area read (which here fails with the
read error on the empty device).  The code aligns the derived keyslot
material size key_size * 4000 = 256000, not area.size, so the claim as
stated is false. -/
theorem claim_C4_counterexample :
    parseInt64 keyslotUnaligned.area.size = some 256001 ∧
    ¬((256001 : Int) % 512 = 0) ∧
    (256001 : Int) ≥ 64 * 4000 ∧
    decryptLuks2VolumeKey prims0 [] 0 keyslotUnaligned [] = .error .ioError ∧
    ¬(decryptLuks2VolumeKey prims0 [] 0 keyslotUnaligned []
        = .error (.sizeNotAligned 0)) ∧
    ¬(decryptLuks2VolumeKey prims0 [] 0 keyslotUnaligned []
        = .error (.offsetNotAligned 0)) := by
  decide

/-- C4 (amended): a keyslot area is rejected when area.size is less than
area.key_size * 4000 (64-bit arithmetic); it is rejected with an alignment
error when the derived keyslot material size area.key_size * 4000 — not
area.size — is not an exact multiple of 512, or when area.offset is not an
exact multiple of 512; otherwise the area read and the per-sector
decryption proceed (decryptAfterRead). -/
theorem claim_C4_amended (P : goPrims) (file : ByteSeq) (idx : Int)
    (ks : keyslot) (afKey : ByteSeq) (sz off : Int)
    (h1 : parseInt64 ks.area.size = some sz)
    (h2 : parseInt64 ks.area.offset = some off) :
    decryptLuks2VolumeKey P file idx ks afKey =
      if toInt64 ((ks.area.keySize * stripesNum) % 2 ^ 64) > sz then
        .error (.areaTooSmall idx)
      else if (ks.area.keySize * stripesNum) % 2 ^ 64 % storageSectorSize = 0 then
        if off % (storageSectorSize : Int) = 0 then
          decryptAfterRead P file ks afKey off ((ks.area.keySize * stripesNum) % 2 ^ 64)
        else .error (.offsetNotAligned idx)
      else .error (.sizeNotAligned idx) := by
  simp only [decryptLuks2VolumeKey, h1, h2]

theorem claim_C4_witness :
    decryptLuks2VolumeKey prims0 [] 7 keyslot0 [] = .ok [] :=
  (claim_C4_amended prims0 [] 7 keyslot0 [] 0 0 (by decide) (by decide)).trans
    (by decide)

/-- C8: for a digest bound to exactly one (parseable) segment whose offset
and ivTweak parse, unlockKeyslot's segment resolution behaves as follows:
a segment size that is the literal string "dynamic" yields storage size 0;
a non-dynamic decimal size of 0 yields the configuration error; otherwise
the volumeInfo carries storageSize = size / sectorSize and storageOffset =
offset / sectorSize (on the unsigned 64-bit representations, as the code
computes them). -/
theorem claim_C8_segment_resolution (meta : metadata) (digIdx : Int)
    (dig : digest) (key : ByteSeq) (s0 : String) (segIdx off tw : Int)
    (h1 : dig.segments = [s0])
    (h2 : parseInt64 s0 = some segIdx)
    (h3 : parseInt64 (segAt meta segIdx).offset = some off)
    (h4 : parseInt64 (segAt meta segIdx).ivTweak = some tw)
    (h5 : ¬((segAt meta segIdx).sectorSize = 0)) :
    resolveVolumeInfo meta digIdx dig key =
      if (segAt meta segIdx).size = "dynamic" then
        .ok { key := key, digestId := digIdx, luksType := "LUKS2",
              storageSize := 0,
              storageOffset := toUint64 off / (segAt meta segIdx).sectorSize,
              storageEncryption := (segAt meta segIdx).encryption,
              storageIvTweak := toUint64 tw,
              storageSectorSize := (segAt meta segIdx).sectorSize }
      else
        match parseInt64 (segAt meta segIdx).size with
        | none => .error .numError
        | some size =>
          if size = 0 then .error .invalidSegmentSize
          else
            .ok { key := key, digestId := digIdx, luksType := "LUKS2",
                  storageSize := toUint64 size / (segAt meta segIdx).sectorSize,
                  storageOffset := toUint64 off / (segAt meta segIdx).sectorSize,
                  storageEncryption := (segAt meta segIdx).encryption,
                  storageIvTweak := toUint64 tw,
                  storageSectorSize := (segAt meta segIdx).sectorSize } := by
  by_cases hdyn : (segAt meta segIdx).size = "dynamic"
  · simp [resolveVolumeInfo, resolveWithSize, h1, h2, h3, h4, hdyn, Nat.zero_div]
  · cases hsz : parseInt64 (segAt meta segIdx).size with
    | none => simp [resolveVolumeInfo, resolveWithSize, h1, h2, h3, h4, hdyn, hsz]
    | some size =>
      by_cases h0 : size = 0
      · simp [resolveVolumeInfo, resolveWithSize, h1, h2, h3, h4, hdyn, hsz, h0]
      · simp [resolveVolumeInfo, resolveWithSize, h1, h2, h3, h4, hdyn, hsz, h0]

theorem except_cases {α β : Type} (x : Except α β) :
    (∃ e, x = .error e) ∨ (∃ a, x = .ok a) := by
  cases x
  · exact Or.inl ⟨_, rfl⟩
  · exact Or.inr ⟨_, rfl⟩

theorem option_cases {α : Type} (o : Option α) :
    o = none ∨ ∃ a, o = some a := by
  cases o
  · exact Or.inl rfl
  · exact Or.inr ⟨_, rfl⟩

theorem deriveLuks2AfKey_ne_wrong (P : goPrims) (k : kdf) (idx : Int)
    (pass : ByteSeq) (len : Nat) :
    ¬(deriveLuks2AfKey P k idx pass len = .error .wrongPassphrase) := by
  intro h
  simp only [deriveLuks2AfKey] at h
  repeat' split at h
  all_goals simp_all

theorem buildLuks2AfCipher_ne_wrong (P : goPrims) (enc : String) (afKey : ByteSeq) :
    ¬(buildLuks2AfCipher P enc afKey = .error .wrongPassphrase) := by
  intro h
  simp only [buildLuks2AfCipher] at h
  repeat' split at h
  all_goals simp_all

theorem decryptAfterRead_ne_wrong (P : goPrims) (file : ByteSeq) (ks : keyslot)
    (afKey : ByteSeq) (off : Int) (sz : Nat) :
    ¬(decryptAfterRead P file ks afKey off sz = .error .wrongPassphrase) := by
  intro h
  simp only [decryptAfterRead] at h
  repeat' split at h
  all_goals simp_all [buildLuks2AfCipher_ne_wrong]

theorem decryptLuks2VolumeKey_ne_wrong (P : goPrims) (file : ByteSeq)
    (idx : Int) (ks : keyslot) (afKey : ByteSeq) :
    ¬(decryptLuks2VolumeKey P file idx ks afKey = .error .wrongPassphrase) := by
  intro h
  simp only [decryptLuks2VolumeKey] at h
  repeat' split at h
  all_goals simp_all [decryptAfterRead_ne_wrong]

theorem computeDigestForKey_ne_wrong (P : goPrims) (dig : digest)
    (finalKey : ByteSeq) :
    ¬(computeDigestForKey P dig finalKey = .error .wrongPassphrase) := by
  intro h
  simp only [computeDigestForKey] at h
  repeat' split at h
  all_goals simp_all

theorem resolveWithSize_ne_wrong (digIdx : Int) (finalKey : ByteSeq)
    (storageSegment : segment) (offset : Int) (storageSize : Nat) :
    ¬(resolveWithSize digIdx finalKey storageSegment offset storageSize
        = .error .wrongPassphrase) := by
  intro h
  simp only [resolveWithSize] at h
  repeat' split at h
  all_goals simp_all

theorem resolveVolumeInfo_ne_wrong (meta : metadata) (digIdx : Int)
    (digInfo : digest) (finalKey : ByteSeq) :
    ¬(resolveVolumeInfo meta digIdx digInfo finalKey = .error .wrongPassphrase) := by
  intro h
  simp only [resolveVolumeInfo] at h
  repeat' split at h
  all_goals simp_all [resolveWithSize_ne_wrong]

set_option maxRecDepth 8000 in
/-- C1: for every choice of primitives, device, file, keyslot index and
passphrase, unlockKeyslot returns the distinguished wrongPassphrase value
exactly when the run reaches digest verification (index in range, key
derivation, area decryption, digest lookup, digest computation and base64
decoding of the stored digest all succeed) and the computed candidate
digest differs byte-for-byte from the decoded stored digest.  In
particular no other error path of unlockKeyslot ever produces
wrongPassphrase. -/
theorem claim_C1_wrong_passphrase_iff (P : goPrims) (d : luks2Device)
    (file : ByteSeq) (idx : Int) (pass : ByteSeq) :
    unlockKeyslot P d file idx pass = .error .wrongPassphrase ↔
      ∃ afKey finalKey digIdx digInfo gen exp,
        ¬(idx < 0 ∨ (d.meta.keyslots.length : Int) ≤ idx) ∧
        deriveLuks2AfKey P (d.meta.keyslots.getD idx.toNat zeroKeyslot).kdf idx
            pass (d.meta.keyslots.getD idx.toNat zeroKeyslot).keySize = .ok afKey ∧
        decryptLuks2VolumeKey P file idx
            (d.meta.keyslots.getD idx.toNat zeroKeyslot) afKey = .ok finalKey ∧
        findDigestForKeyslot d.meta.digests idx = (digIdx, some digInfo) ∧
        computeDigestForKey P digInfo finalKey = .ok gen ∧
        P.b64decode digInfo.digest = some exp ∧
        ¬(gen = exp) := by
  constructor
  · intro h
    by_cases hb : idx < 0 ∨ (d.meta.keyslots.length : Int) ≤ idx
    · simp only [unlockKeyslot, if_pos hb] at h
      exact absurd h (by simp)
    · rcases except_cases (deriveLuks2AfKey P
          (d.meta.keyslots.getD idx.toNat zeroKeyslot).kdf idx pass
          (d.meta.keyslots.getD idx.toNat zeroKeyslot).keySize) with
        ⟨e, hderive⟩ | ⟨afKey, hderive⟩
      · simp only [unlockKeyslot, if_neg hb, hderive] at h
        have he : e = luksError.wrongPassphrase := by simpa using h
        subst he
        exact (deriveLuks2AfKey_ne_wrong P _ idx pass _ hderive).elim
      · rcases except_cases (decryptLuks2VolumeKey P file idx
            (d.meta.keyslots.getD idx.toNat zeroKeyslot) afKey) with
          ⟨e, hdecrypt⟩ | ⟨finalKey, hdecrypt⟩
        · simp only [unlockKeyslot, if_neg hb, hderive, hdecrypt] at h
          have he : e = luksError.wrongPassphrase := by simpa using h
          subst he
          exact (decryptLuks2VolumeKey_ne_wrong P file idx _ afKey hdecrypt).elim
        · obtain ⟨digIdx0, digInfoOpt, hfind⟩ :
              ∃ a b, findDigestForKeyslot d.meta.digests idx = (a, b) := ⟨_, _, rfl⟩
          rcases option_cases digInfoOpt with hfo | ⟨digInfo, hfo⟩ <;> subst hfo
          · simp only [unlockKeyslot, if_neg hb, hderive, hdecrypt, hfind] at h
            exact absurd h (by simp)
          · rcases except_cases (computeDigestForKey P digInfo finalKey) with
              ⟨e, hcompute⟩ | ⟨gen, hcompute⟩
            · simp only [unlockKeyslot, if_neg hb, hderive, hdecrypt, hfind,
                hcompute] at h
              have he : e = luksError.wrongPassphrase := by simpa using h
              subst he
              exact (computeDigestForKey_ne_wrong P digInfo finalKey hcompute).elim
            · rcases option_cases (P.b64decode digInfo.digest) with
                hb64 | ⟨exp, hb64⟩
              · simp only [unlockKeyslot, if_neg hb, hderive, hdecrypt, hfind,
                  hcompute, hb64] at h
                exact absurd h (by simp)
              · by_cases hne : gen = exp
                · simp only [unlockKeyslot, if_neg hb, hderive, hdecrypt, hfind,
                    hcompute, hb64, if_pos hne] at h
                  exact (resolveVolumeInfo_ne_wrong d.meta digIdx0 digInfo finalKey h).elim
                · exact ⟨afKey, finalKey, digIdx0, digInfo, gen, exp,
                    hb, hderive, hdecrypt, hfind, hcompute, hb64, hne⟩
  · rintro ⟨afKey, finalKey, digIdx, digInfo, gen, exp,
      hb, hderive, hdecrypt, hfind, hcompute, hb64, hne⟩
    simp only [unlockKeyslot, if_neg hb, hderive, hdecrypt, hfind, hcompute,
      hb64, if_neg hne]

theorem claim_C1_witness :
    unlockKeyslot prims0 devBad [] 0 [1, 2, 3] = .error .wrongPassphrase :=
  (claim_C1_wrong_passphrase_iff prims0 devBad [] 0 [1, 2, 3]).mpr
    ⟨List.replicate 0 7, [], 0, digestBad, List.replicate 32 7, [],
      by decide, by decide, by decide, by decide, by decide, by decide, by decide⟩

theorem file5_length : file5.length = 256000 := by
  unfold file5
  exact List.length_replicate 256000 0

theorem readAt_file5 : readAt file5 0 256000
    = some ((file5.drop (0 : Int).toNat).take 256000) := by
  have hc : 0 ≤ (0 : Int) ∧ ((0 : Int)).toNat + 256000 ≤ file5.length := by
    rw [file5_length]
    exact ⟨by decide, by decide⟩
  unfold readAt
  rw [if_pos hc]

theorem splitSep_aes : splitSep "aes-xts-plain64" '-' = ["aes", "xts", "plain64"] := by
  decide

theorem decryptAfterRead_some (P : goPrims) (file : ByteSeq) (ks : keyslot)
    (afKey : ByteSeq) (off : Int) (sz : Nat) (keyData : ByteSeq)
    (h : readAt file off sz = some keyData) :
    decryptAfterRead P file ks afKey off sz =
      match buildLuks2AfCipher P ks.area.encryption afKey with
      | .error e => .error e
      | .ok cipherKey =>
        if ks.af.stripes = stripesNum then
          if ks.af.hash = "sha256" then
            .ok (P.afMerge (decryptSectors P cipherKey keyData
                  (sz / storageSectorSize)) ks.keySize ks.af.stripes)
          else .error (.unknownAfHash ks.af.hash)
        else .error .unsupportedStripes := by
  unfold decryptAfterRead
  rw [h]

set_option maxRecDepth 4000 in
theorem decryptAfterRead_file5 :
    decryptAfterRead prims5 file5 keyslot5 (List.replicate 64 7) 0 256000
      = .ok (List.replicate 64 5) :=
  (decryptAfterRead_some prims5 file5 keyslot5 (List.replicate 64 7) 0 256000
    ((file5.drop (0 : Int).toNat).take 256000) readAt_file5).trans rfl

theorem decryptLuks2VolumeKey_checks_pass (P : goPrims) (file : ByteSeq)
    (idx : Int) (ks : keyslot) (afKey : ByteSeq) (areaSz off : Int) (szb : Nat)
    (hsz : (ks.area.keySize * stripesNum) % 2 ^ 64 = szb)
    (h1 : parseInt64 ks.area.size = some areaSz)
    (h2 : parseInt64 ks.area.offset = some off)
    (h3 : ¬(toInt64 szb > areaSz))
    (h4 : szb % storageSectorSize = 0)
    (h5 : off % (storageSectorSize : Int) = 0) :
    decryptLuks2VolumeKey P file idx ks afKey
      = decryptAfterRead P file ks afKey off szb := by
  simp only [decryptLuks2VolumeKey, hsz, h1, h2, if_neg h3, if_pos h4, if_pos h5]

theorem decryptLuks2VolumeKeyB_checks_pass (P : goPrims) (file : ByteSeq)
    (idx : Int) (ks : keyslot) (afKey : ByteSeq) (areaSz off : Int) (szb : Nat)
    (hsz : (ks.area.keySize * stripesNum) % 2 ^ 64 = szb)
    (h1 : parseInt64 ks.area.size = some areaSz)
    (h2 : parseInt64 ks.area.offset = some off)
    (h3 : ¬(toInt64 szb > areaSz))
    (h4 : szb % storageSectorSize = 0)
    (h5 : off % (storageSectorSize : Int) = 0) :
    decryptLuks2VolumeKeyB P file idx ks afKey
      = (decryptAfterRead P file ks afKey off szb, some true) := by
  simp only [decryptLuks2VolumeKeyB, hsz, h1, h2, if_neg h3, if_pos h4, if_pos h5]

theorem decryptVolumeKey_file5 :
    decryptLuks2VolumeKey prims5 file5 0 keyslot5 (List.replicate 64 7)
      = .ok (List.replicate 64 5) :=
  (decryptLuks2VolumeKey_checks_pass prims5 file5 0 keyslot5 (List.replicate 64 7)
    256000 0 256000 (by decide) (by decide) (by decide) (by decide) (by decide)
    (by decide)).trans decryptAfterRead_file5

theorem decryptVolumeKeyB_file5 :
    decryptLuks2VolumeKeyB prims5 file5 0 keyslot5 (List.replicate 64 7)
      = (.ok (List.replicate 64 5), some true) :=
  (decryptLuks2VolumeKeyB_checks_pass prims5 file5 0 keyslot5 (List.replicate 64 7)
    256000 0 256000 (by decide) (by decide) (by decide) (by decide) (by decide)
    (by decide)).trans (by rw [decryptAfterRead_file5])

theorem unlockKeyslotB_mismatch (P : goPrims) (d : luks2Device) (file : ByteSeq)
    (idx : Int) (pass afKey finalKey : ByteSeq) (kd : Option Bool)
    (digIdx : Int) (digInfo : digest) (gen exp : ByteSeq)
    (hb : ¬(idx < 0 ∨ (d.meta.keyslots.length : Int) ≤ idx))
    (hderive : deriveLuks2AfKey P (d.meta.keyslots.getD idx.toNat zeroKeyslot).kdf
        idx pass (d.meta.keyslots.getD idx.toNat zeroKeyslot).keySize = .ok afKey)
    (hdecrypt : decryptLuks2VolumeKeyB P file idx
        (d.meta.keyslots.getD idx.toNat zeroKeyslot) afKey = (.ok finalKey, kd))
    (hfind : findDigestForKeyslot d.meta.digests idx = (digIdx, some digInfo))
    (hcompute : computeDigestForKey P digInfo finalKey = .ok gen)
    (hb64 : P.b64decode digInfo.digest = some exp)
    (hne : ¬(gen = exp)) :
    unlockKeyslotB P d file idx pass =
      (.error .wrongPassphrase,
        { afKeyCleared := some true, keyDataCleared := kd,
          finalKeyCleared := some false, digestCleared := some true }) := by
  simp only [unlockKeyslotB, if_neg hb, hderive, hdecrypt, hfind, hcompute,
    hb64, if_neg hne]

theorem dev5_keyslot0 :
    dev5.meta.keyslots.getD (0 : Int).toNat zeroKeyslot = keyslot5 := by
  decide

/-- C5 (code bug evaluation): a full run of the buffer-instrumented
unlockKeyslot on a realistic keyslot (key size 64, a 256000-byte area read
from a 256000-byte device, a 64-byte AES-256-XTS area key, valid base64
fields) whose digest verification fails returns the wrongPassphrase error
while the merged candidate key buffer (finalKey) is left un-zeroed: its
ledger entry is some false, although the derived AF key, the decrypted
area and the computed digest are all zeroed (some true).  The second
conjunct identifies the leaked buffer: the merged key of this run (from
afKey = the 64-byte pbkdf2 output) is the 64-byte merge result, which the
remaining conjuncts show is neither all zeros nor empty.  The source has
defer clearSlice for afKey (line 122), keyData (line 264) and
generatedDigest (line 139) but none for finalKey, so every error exit
after key reconstruction leaks the un-zeroed candidate key, contradicting
the claim that every intermediate secret buffer is zeroed on every error
path. -/
theorem claim_C5_code_bug_eval :
    (unlockKeyslotB prims5 dev5 file5 0 [1, 2, 3] =
      (.error .wrongPassphrase,
        { afKeyCleared := some true, keyDataCleared := some true,
          finalKeyCleared := some false, digestCleared := some true }))
    ∧ decryptLuks2VolumeKey prims5 file5 0 keyslot5 (List.replicate 64 7)
        = .ok (List.replicate 64 5)
    ∧ ¬(List.replicate 64 (5 : Nat) = List.replicate 64 0)
    ∧ (List.replicate 64 (5 : Nat)).length = 64 :=
  ⟨unlockKeyslotB_mismatch prims5 dev5 file5 0 [1, 2, 3] (List.replicate 64 7)
      (List.replicate 64 5) (some true) 0 digest5 (List.replicate 32 7) [0, 0, 0]
      (by decide) (by decide)
      (by rw [dev5_keyslot0]; exact decryptVolumeKeyB_file5)
      (by decide) (by decide) (by decide) (by decide),
    decryptVolumeKey_file5, by decide, by decide⟩

/-- C3: the attempt loop of unlockAnyKeyslot over its candidate list: a
wrongPassphrase attempt continues with the next candidate, any other error
aborts and propagates immediately, a success returns its volumeInfo
immediately, and the overall result is wrongPassphrase exactly when every
candidate (in particular, an empty candidate list) yields wrongPassphrase. -/
theorem claim_C3_attempt_semantics (P : goPrims) (d : luks2Device)
    (file : ByteSeq) (pass : ByteSeq) :
    (unlockAnyKeyslot P d file pass
        = tryKeyslots P d file pass (activeKeyslots d.meta.keyslots))
    ∧ (∀ ks : List Int,
        tryKeyslots P d file pass ks = .error .wrongPassphrase ↔
          ∀ k ∈ ks, unlockKeyslot P d file k pass = .error .wrongPassphrase)
    ∧ (∀ (k : Int) (ks : List Int) (v : volumeInfo),
        unlockKeyslot P d file k pass = .ok v →
          tryKeyslots P d file pass (k :: ks) = .ok v)
    ∧ (∀ (k : Int) (ks : List Int),
        unlockKeyslot P d file k pass = .error .wrongPassphrase →
          tryKeyslots P d file pass (k :: ks) = tryKeyslots P d file pass ks)
    ∧ (∀ (k : Int) (ks : List Int) (e : luksError),
        unlockKeyslot P d file k pass = .error e → ¬(e = .wrongPassphrase) →
          tryKeyslots P d file pass (k :: ks) = .error e)
    ∧ tryKeyslots P d file pass [] = .error .wrongPassphrase := by
  refine ⟨rfl, ?_, ?_, ?_, ?_, rfl⟩
  · intro ks
    induction ks with
    | nil => simp [tryKeyslots]
    | cons k ks ih =>
      rcases except_cases (unlockKeyslot P d file k pass) with ⟨e, hu⟩ | ⟨v, hu⟩
      · by_cases he : e = luksError.wrongPassphrase
        · subst he
          simp [tryKeyslots, hu, ih, List.forall_mem_cons]
        · simp [tryKeyslots, hu, he, List.forall_mem_cons]
      · simp [tryKeyslots, hu, List.forall_mem_cons]
  · intro k ks v hu
    simp [tryKeyslots, hu]
  · intro k ks hu
    simp [tryKeyslots, hu]
  · intro k ks e hu hne
    simp [tryKeyslots, hu, hne]

theorem claim_C3_witness :
    tryKeyslots prims0 devBad [] [1, 2, 3] [5] = .error (.keyslotOutOfRange 5) :=
  (claim_C3_attempt_semantics prims0 devBad [] [1, 2, 3]).2.2.2.2.1 5 []
    (.keyslotOutOfRange 5) (by decide) (by decide)

theorem claim_C8_witness :
    resolveVolumeInfo devOk.meta 0 digestOk [] =
      .ok { key := [], digestId := 0, luksType := "LUKS2", storageSize := 256,
            storageOffset := 32, storageEncryption := "aes-xts-plain64",
            storageIvTweak := 0, storageSectorSize := 512 } :=
  (claim_C8_segment_resolution devOk.meta 0 digestOk [] "0" 0 16384 0
    (by decide) (by decide) (by decide) (by decide) (by decide)).trans (by decide)


theorem enumFrom_succ (n : Nat) (xs : List keyslot) :
    enumFrom (n + 1) xs = (enumFrom n xs).map (fun q => (q.1 + 1, q.2)) := by
  induction xs generalizing n with
  | nil => rfl
  | cons x xs ih => simp [enumFrom, ih]

theorem enumFilterMap_eq (p : keyslot → Prop) [DecidablePred p] (xs : List keyslot) :
    (enumFrom 0 xs).filterMap
        (fun kv => if p kv.2 then some (kv.1 : Int) else none)
      = ((List.range xs.length).filter
          (fun i => decide (p (xs.getD i zeroKeyslot)))).map Int.ofNat := by
  induction xs with
  | nil => rfl
  | cons x xs ih =>
    rw [show enumFrom 0 (x :: xs) = (0, x) :: enumFrom (0 + 1) xs from rfl,
        List.filterMap_cons, enumFrom_succ, List.filterMap_map]
    have hcomp :
        ((fun kv : Nat × keyslot => if p kv.2 then some (kv.1 : Int) else none)
            ∘ (fun q : Nat × keyslot => (q.1 + 1, q.2)))
          = fun kv : Nat × keyslot =>
              Option.map (fun z : Int => z + 1)
                (if p kv.2 then some (kv.1 : Int) else none) := by
      funext kv
      by_cases hp : p kv.2 <;> simp [hp]
    rw [hcomp, ← List.map_filterMap, ih]
    rw [List.length_cons, List.range_succ_eq_map, List.filter_cons]
    have hq : ((fun i => decide (p ((x :: xs).getD i zeroKeyslot))) ∘ Nat.succ)
        = fun i => decide (p (xs.getD i zeroKeyslot)) := by
      funext i
      simp [List.getD_cons_succ]
    rw [List.filter_map, hq]
    by_cases hp : p x <;>
      simp [hp, List.getD_cons_zero, List.map_map, Function.comp_def,
        Int.ofNat_succ]

theorem collectPrio_go (l : List (Nat × keyslot)) (a b : List Int) :
    l.foldl
      (fun acc kv =>
        if kv.2.priority = "2" then (acc.1 ++ [(kv.1 : Int)], acc.2)
        else if kv.2.priority = "" ∨ kv.2.priority = "1" then
          (acc.1, acc.2 ++ [(kv.1 : Int)])
        else acc) (a, b)
      = (a ++ l.filterMap
            (fun kv => if kv.2.priority = "2" then some (kv.1 : Int) else none),
         b ++ l.filterMap
            (fun kv => if kv.2.priority = "" ∨ kv.2.priority = "1" then
              some (kv.1 : Int) else none)) := by
  induction l generalizing a b with
  | nil => simp
  | cons kv l ih =>
    rw [List.foldl_cons]
    by_cases h2 : kv.2.priority = "2"
    · rw [if_pos h2, ih]
      simp [h2, List.filterMap_cons, List.append_assoc]
    · by_cases h01 : kv.2.priority = "" ∨ kv.2.priority = "1"
      · rw [if_neg h2, if_pos h01, ih]
        simp [h2, h01, List.filterMap_cons, List.append_assoc]
      · rw [if_neg h2, if_neg h01, ih]
        simp [h2, h01, List.filterMap_cons]

theorem sortedInsert_of_le (x : Int) (xs : List Int) (h : ∀ y ∈ xs, x ≤ y) :
    sortedInsert x xs = x :: xs := by
  cases xs with
  | nil => rfl
  | cons y ys => rw [sortedInsert, if_pos (h y (List.mem_cons_self y ys))]

theorem insertionSort_of_sorted (l : List Int) (h : l.Pairwise (· ≤ ·)) :
    insertionSort l = l := by
  induction l with
  | nil => rfl
  | cons x xs ih =>
    rw [List.pairwise_cons] at h
    rw [insertionSort, ih h.2, sortedInsert_of_le x xs h.1]

theorem rangeFilterMap_pairwise (n : Nat) (q : Nat → Bool) :
    (((List.range n).filter q).map Int.ofNat).Pairwise (· ≤ ·) :=
  List.Pairwise.map _
    (fun a b (hab : a < b) => Int.ofNat_le.mpr hab.le)
    ((List.pairwise_lt_range n).filter q)

/-- C2: unlockAnyKeyslot attempts exactly the keyslots whose priority is
"2", "" or "1": its candidate list is the ascending list of priority-"2"
indices followed by the ascending list of priority-""/"1" indices, and a
keyslot with any other priority (for instance "0") never appears in it.
The second conjunct is the concrete scenario of the spec: priorities
{2, 1, "", 2, 0} yield the attempt order 0, 3, 1, 2, with the priority-"0"
keyslot 4 never attempted. -/
theorem claim_C2_priority_order :
    (∀ ksl : List keyslot,
      activeKeyslots ksl =
        ((List.range ksl.length).filter
            (fun i => decide ((ksl.getD i zeroKeyslot).priority = "2"))).map Int.ofNat
        ++ ((List.range ksl.length).filter
            (fun i => decide ((ksl.getD i zeroKeyslot).priority = ""
              ∨ (ksl.getD i zeroKeyslot).priority = "1"))).map Int.ofNat)
    ∧ activeKeyslots [prioKeyslot "2", prioKeyslot "1", prioKeyslot "",
        prioKeyslot "2", prioKeyslot "0"] = [0, 3, 1, 2] := by
  constructor
  · intro ksl
    simp only [activeKeyslots, collectPrio]
    rw [collectPrio_go]
    simp only [List.nil_append]
    rw [enumFilterMap_eq (fun v => v.priority = "2"),
        enumFilterMap_eq (fun v => v.priority = "" ∨ v.priority = "1"),
        insertionSort_of_sorted _ (rangeFilterMap_pairwise _ _),
        insertionSort_of_sorted _ (rangeFilterMap_pairwise _ _)]
  · decide

end Luks
